import Mathlib

set_option maxHeartbeats 1000000
set_option maxRecDepth 8000

/-!
Shallow embedding of the constant-table registration shim in
src/src/ca_client/ca/ca.cpp: the five constant groups (Status, Severity,
Type, AccessRights, Events), the generic registration routine add_enum,
and the module initializer PyInit_ca.  Host-runtime (CPython) calls that
can fail are driven by explicit boolean oracles; module attributes are an
ordered association list; reference ownership on the error paths is
tracked explicitly.
-/

namespace ca

/-- Entry of a constant table: display name and integer value
(struct Entry in ca.cpp; the C long value is modelled as Int). -/
structure Entry where
  text : String
  value : Int
  deriving DecidableEq

/-- Modelled from the spec: the external client library's alarm-severity
name table (epicsAlarmSeverityStrings of alarm.h), a fixed external
contract supplying one name per severity code. -/
def epicsAlarmSeverityStrings : List String :=
  ["NO_ALARM", "MINOR", "MAJOR", "INVALID"]

/-- Modelled from the spec: the external library's alarm-severity count
(ALARM_NSEV of alarm.h). -/
def ALARM_NSEV : Nat := epicsAlarmSeverityStrings.length

/-- Modelled from the spec: the external client library's alarm-status
name table (epicsAlarmConditionStrings of alarm.h). -/
def epicsAlarmConditionStrings : List String :=
  ["NO_ALARM", "READ", "WRITE", "HIHI", "HIGH", "LOLO", "LOW", "STATE",
   "COS", "COMM", "TIMEOUT", "HWLIMIT", "CALC", "SCAN", "LINK", "SOFT",
   "BAD_SUB", "UDF", "DISABLE", "SIMM", "READ_ACCESS", "WRITE_ACCESS"]

/-- Modelled from the spec: the external library's alarm-status count
(ALARM_NSTATUS of alarm.h). -/
def ALARM_NSTATUS : Nat := epicsAlarmConditionStrings.length

/-- Modelled from the spec: the external library's field-type name table
(dbf_text of db_access.h).  First entry and last entry are the two
reserved sentinels (not-connected marker and no-access marker). -/
def dbf_text : List String :=
  ["TYPENOTCONN", "DBF_STRING", "DBF_SHORT", "DBF_FLOAT", "DBF_ENUM",
   "DBF_CHAR", "DBF_LONG", "DBF_DOUBLE", "DBF_NO_ACCESS"]

/-- Modelled from the spec: the library's field-type count, the dimension
of the dbf_text table (dbf_text_dim of db_access.h). -/
def dbf_text_dim : Nat := dbf_text.length

/-- Modelled from the spec: the marker string the library returns for an
out-of-range field-type code (dbf_text_invalid of db_access.h). -/
def dbf_text_invalid : String := "DBF_invalid"

/-- Modelled from the spec: the library's field-type-code-to-name mapping
(the dbf_type_to_text lookup of db_access.h): valid codes c with
-1 <= c <= dbf_text_dim - 2 index dbf_text at c + 1, everything else maps
to the invalid marker.  Codes used by this module are natural numbers, so
only the upper bound is modelled. -/
def dbf_type_to_text (i : Nat) : String :=
  if i + 1 ≤ dbf_text_dim - 1 then dbf_text.getD (i + 1) dbf_text_invalid
  else dbf_text_invalid

/-- Modelled from the spec: the library's event-mask bit for value changes
(DBE_VALUE of caeventmask.h). -/
def DBE_VALUE : Int := 1

/-- Modelled from the spec: the library's event-mask bit for archival
changes (DBE_ARCHIVE, alias of DBE_LOG, of caeventmask.h). -/
def DBE_ARCHIVE : Int := 2

/-- Modelled from the spec: the library's event-mask bit for alarm-state
changes (DBE_ALARM of caeventmask.h). -/
def DBE_ALARM : Int := 4

/-- Modelled from the spec: the library's event-mask bit for property
changes (DBE_PROPERTY of caeventmask.h). -/
def DBE_PROPERTY : Int := 8

/-- Modelled from the spec: the POSIX time value of the library's epoch
reference, 1990-01-01T00:00:00Z (POSIX_TIME_AT_EPICS_EPOCH of
epicsTime.h). -/
def POSIX_TIME_AT_EPICS_EPOCH : Int := 631152000

/-- A constant-group table provider: the structural capability contract of
the EnumDef template parameter of add_enum (name, optional doc, count,
and the text/value accessors). -/
structure EnumDef where
  name : String
  doc : Option String
  count : Nat
  text : Nat → String
  value : Nat → Int

/-- Group Status from ca.cpp: texts are the library's alarm-status
strings, values are the index. -/
def Status : EnumDef where
  name := "Status"
  doc := some "Alarm status of a channel access PV."
  count := ALARM_NSTATUS
  text := fun i => epicsAlarmConditionStrings.getD i ""
  value := fun i => (i : Int)

/-- Group Severity from ca.cpp: texts are the library's alarm-severity
strings, values are the index. -/
def Severity : EnumDef where
  name := "Severity"
  doc := some "Alarm severity of a channel access PV."
  count := ALARM_NSEV
  text := fun i => epicsAlarmSeverityStrings.getD i ""
  value := fun i => (i : Int)

/-- Group Type from ca.cpp (named TypeGroup here because Type is a Lean
keyword): count is dbf_text_dim - 2, the text is dbf_type_to_text(i) + 4,
i.e. the library name with its first four bytes dropped (modelled as a
four-character drop on the character list; all names are ASCII), value is
the index. -/
def TypeGroup : EnumDef where
  name := "Type"
  doc := some "Possible types of a channel access PV."
  count := dbf_text_dim - 2
  text := fun i => String.mk ((dbf_type_to_text i).data.drop 4)
  value := fun i => (i : Int)

/-- The AccessRights entry table from ca.cpp. -/
def AccessRights_entries : List Entry :=
  [⟨"NO_ACCESS", 0⟩, ⟨"READ_ACCESS", 1⟩, ⟨"WRITE_ACCESS", 2⟩, ⟨"RW_ACCESS", 3⟩]

/-- Group AccessRights from ca.cpp: accessors read the entry table. -/
def AccessRights : EnumDef where
  name := "AccessRights"
  doc := some "Access rights for channel access PVs.  These can be combined by or-ing them together."
  count := AccessRights_entries.length
  text := fun i => (AccessRights_entries.getD i ⟨"", 0⟩).text
  value := fun i => (AccessRights_entries.getD i ⟨"", 0⟩).value

/-- The Events entry table from ca.cpp; the ALL value is written as the
bitwise OR of the four named masks, exactly as in the source. -/
def Events_entries : List Entry :=
  [⟨"NONE", 0⟩, ⟨"VALUE", DBE_VALUE⟩, ⟨"ARCHIVE", DBE_ARCHIVE⟩,
   ⟨"ALARM", DBE_ALARM⟩, ⟨"PROPERTY", DBE_PROPERTY⟩,
   ⟨"ALL", Int.lor (Int.lor (Int.lor DBE_VALUE DBE_ARCHIVE) DBE_ALARM) DBE_PROPERTY⟩]

/-- Group Events from ca.cpp: accessors read the entry table. -/
def Events : EnumDef where
  name := "Events"
  doc := some "Available event sources for channel access PVs.  These can be combined by or-ing them together."
  count := Events_entries.length
  text := fun i => (Events_entries.getD i ⟨"", 0⟩).text
  value := fun i => (Events_entries.getD i ⟨"", 0⟩).value

/-- Modelled from the spec: the host runtime's enum/flag type constructor
produces a type object whose members are exactly the supplied (name,
value) pairs; docSet records whether a documentation attribute was
attached afterwards. -/
structure TypeObj where
  name : String
  members : List (String × Int)
  docSet : Bool
  deriving DecidableEq

/-- A module attribute value: an integer constant (PyModule_AddIntConstant)
or a constructed enum/flag type (PyModule_AddObject). -/
inductive PyAttr where
  | intConst : Int → PyAttr
  | enumType : TypeObj → PyAttr
  deriving DecidableEq

/-- Oracle for the fallible host-runtime calls inside add_enum:
PyList_New, Py_BuildValue for entry i, the constructor call,
PyUnicode_FromString for the doc string, PyObject_SetAttrString for the
doc attribute, and PyModule_AddObject. -/
structure AddOracle where
  listNewOk : Bool
  buildValueOk : Nat → Bool
  callOk : Bool
  unicodeOk : Bool
  setDocOk : Bool
  addObjectOk : Bool

/-- Result of one add_enum call: the C bool return value, the module's
attribute list afterwards, whether the runtime's error indicator is
pending, the (name, pairs) arguments handed to the type constructor when
the call was reached, and the objects whose references were neither
released nor transferred on that path. -/
structure AddResult where
  ok : Bool
  attrs : List (String × PyAttr)
  errPending : Bool
  calledWith : Option (String × List (String × Int))
  leaked : List String
  deriving DecidableEq

/-- The entry-building loop of add_enum: starting at index i with k
entries left, build Py_BuildValue("(si)", text(i), value(i)) for each
index; the first failing Py_BuildValue aborts the loop (the source then
releases the list and returns false).  All values fit in a C int, so the
"(si)" int conversion is the identity. -/
def buildPairs (d : EnumDef) (o : AddOracle) : Nat → Nat → Option (List (String × Int))
  | _, 0 => some []
  | i, k + 1 =>
    if o.buildValueOk i then
      match buildPairs d o (i + 1) k with
      | some rest => some ((d.text i, d.value i) :: rest)
      | none => none
    else none

/-- The add_enum routine of ca.cpp, one call per constant group.  Mirrors
the source line by line: PyList_New, the Py_BuildValue loop, the
constructor call (the "N" format transfers the list's reference into the
call whether or not it succeeds), the best-effort doc attachment whose
failure is ignored (and whose pending error is not cleared), and
PyModule_AddObject.  PyModule_AddObject steals the type's reference only
on success; the source does not release the type on the failure branch,
which is recorded in leaked. -/
def add_enum (d : EnumDef) (o : AddOracle) (attrs : List (String × PyAttr))
    (errIn : Bool) : AddResult :=
  if o.listNewOk then
    match buildPairs d o 0 d.count with
    | none => { ok := false, attrs := attrs, errPending := true, calledWith := none, leaked := [] }
    | some pairs =>
      if o.callOk then
        let docFailed : Bool :=
          match d.doc with
          | none => false
          | some _ => !(o.unicodeOk && o.setDocOk)
        let docSet : Bool :=
          match d.doc with
          | none => false
          | some _ => o.unicodeOk && o.setDocOk
        let ty : TypeObj := { name := d.name, members := pairs, docSet := docSet }
        if o.addObjectOk then
          { ok := true, attrs := attrs ++ [(d.name, PyAttr.enumType ty)],
            errPending := errIn || docFailed,
            calledWith := some (d.name, pairs), leaked := [] }
        else
          { ok := false, attrs := attrs, errPending := true,
            calledWith := some (d.name, pairs),
            leaked := ["type " ++ d.name] }
      else
        { ok := false, attrs := attrs, errPending := true,
          calledWith := some (d.name, pairs), leaked := [] }
  else
    { ok := false, attrs := attrs, errPending := true, calledWith := none, leaked := [] }

/-- The ordered pair sequence the spec describes: (text(i), value(i)) for
i in [0, count()).  Stated from the spec's words, to be compared with the
loop-built list of the source. -/
def specPairs (d : EnumDef) : List (String × Int) :=
  (List.range d.count).map (fun i => (d.text i, d.value i))

/-- Value of the member named s among the pairs of group d, as handed to
the type constructor. -/
def memberVal (d : EnumDef) (s : String) : Option Int :=
  ((specPairs d).find? (fun p => p.1 == s)).map Prod.snd

/-- The host-runtime references PyInit_ca acquires: the module object, the
imported enum module, and the Enum and Flag/IntEnum class objects. -/
inductive Ref where
  | module
  | enumModule
  | enumClass
  | flagClass
  deriving DecidableEq

/-- Which object the flag-class lookup resolved to: the preferred Flag
constructor or the IntEnum fallback. -/
inductive FlagChoice where
  | flagCtor
  | intEnumCtor
  deriving DecidableEq

/-- Which of the two resolved constructor slots a registration used. -/
inductive CtorSlot where
  | enumSlot
  | flagSlot
  deriving DecidableEq

/-- Observable initialization events: namespace creation, integer-constant
attachment, and the successful registration of one group with one
constructor slot. -/
inductive Event where
  | createNamespace
  | addIntConstant : String → Int → Event
  | register : String → CtorSlot → Event
  deriving DecidableEq

/-- Oracle for the fallible host-runtime calls of PyInit_ca:
PyModule_Create, PyModule_AddIntConstant for the epoch,
PyImport_ImportModule("enum"), the three attribute lookups, and one
AddOracle per group registration. -/
structure InitOracle where
  moduleCreateOk : Bool
  addEpochOk : Bool
  importEnumOk : Bool
  hasEnumAttr : Bool
  hasFlagAttr : Bool
  hasIntEnumAttr : Bool
  severityO : AddOracle
  statusO : AddOracle
  typeO : AddOracle
  accessRightsO : AddOracle
  eventsO : AddOracle

/-- Result of PyInit_ca: the returned namespace (none on failure), the
module's attribute list at the return point, the resolved flag
constructor, the references acquired in acquisition order, the references
released at exit in release order, the event trace, and the pending error
indicator. -/
structure InitResult where
  returned : Option (List (String × PyAttr))
  attrsAtEnd : List (String × PyAttr)
  flagResolved : Option FlagChoice
  acquired : List Ref
  released : List Ref
  trace : List Event
  errPending : Bool

/-- The error label of PyInit_ca: Py_XDECREF(flag_class),
Py_XDECREF(enum_class), Py_XDECREF(enum_module), Py_XDECREF(module) in
this textual order; a decref of a still-null pointer is a no-op, modelled
by keeping only the references actually acquired. -/
def xdecrefSeq (acq : List Ref) : List Ref :=
  [Ref.flagClass, Ref.enumClass, Ref.enumModule, Ref.module].filter
    (fun r => acq.contains r)

/-- An InitResult for the goto-error path: nothing returned, the error
label's release sequence over the acquired references. -/
def initFail (acq : List Ref) (attrs : List (String × PyAttr))
    (fr : Option FlagChoice) (tr : List Event) : InitResult :=
  { returned := none, attrsAtEnd := attrs, flagResolved := fr,
    acquired := acq, released := xdecrefSeq acq, trace := tr,
    errPending := true }

/-- The flag-class lookup of PyInit_ca: getattr(enum, "Flag"), and when
that fails the error is cleared and getattr(enum, "IntEnum") is tried;
failure of both is fatal. -/
def flagLookup (o : InitOracle) : Option FlagChoice :=
  if o.hasFlagAttr then some FlagChoice.flagCtor
  else if o.hasIntEnumAttr then some FlagChoice.intEnumCtor
  else none

/-- All four references, in the acquisition order of the source. -/
def acqAll : List Ref := [Ref.module, Ref.enumModule, Ref.enumClass, Ref.flagClass]

/-- The five registrations of PyInit_ca in source order, each with its
constructor slot and its oracle. -/
def groupsOf (o : InitOracle) : List (EnumDef × CtorSlot × AddOracle) :=
  [(Severity, CtorSlot.enumSlot, o.severityO),
   (Status, CtorSlot.enumSlot, o.statusO),
   (TypeGroup, CtorSlot.enumSlot, o.typeO),
   (AccessRights, CtorSlot.flagSlot, o.accessRightsO),
   (Events, CtorSlot.flagSlot, o.eventsO)]

/-- Running state of the registration sequence: whether all calls so far
returned true, the module attributes, the pending error indicator, and
the event trace. -/
structure RegState where
  ok : Bool
  attrs : List (String × PyAttr)
  errPending : Bool
  trace : List Event
  deriving DecidableEq

/-- The five sequential add_enum calls of PyInit_ca: each failure goes to
the error label at once (no later group is attempted). -/
def registerAll : List (EnumDef × CtorSlot × AddOracle) → RegState → RegState
  | [], st => st
  | (d, slot, ao) :: rest, st =>
    let r := add_enum d ao st.attrs st.errPending
    if r.ok then
      registerAll rest
        { ok := true, attrs := r.attrs, errPending := r.errPending,
          trace := st.trace ++ [Event.register d.name slot] }
    else
      { ok := false, attrs := r.attrs, errPending := r.errPending, trace := st.trace }

/-- State of the module right after the epoch constant was attached and
before the first registration: one integer attribute, no pending error,
and the creation and epoch events in the trace. -/
def initRegState : RegState :=
  { ok := true,
    attrs := [("EPICS_EPOCH", PyAttr.intConst POSIX_TIME_AT_EPICS_EPOCH)],
    errPending := false,
    trace := [Event.createNamespace,
              Event.addIntConstant "EPICS_EPOCH" POSIX_TIME_AT_EPICS_EPOCH] }

/-- The PyInit_ca initializer of ca.cpp: create the module, attach
EPICS_EPOCH, import enum, look up Enum, look up Flag with the IntEnum
fallback, register the five groups in source order, and on success
release the three lookup references and return the module; any failure
jumps to the error label. -/
def PyInit_ca (o : InitOracle) : InitResult :=
  if o.moduleCreateOk then
    if o.addEpochOk then
      if o.importEnumOk then
        if o.hasEnumAttr then
          match flagLookup o with
          | none =>
            initFail [Ref.module, Ref.enumModule, Ref.enumClass]
              initRegState.attrs none initRegState.trace
          | some fc =>
            let st := registerAll (groupsOf o) initRegState
            if st.ok then
              { returned := some st.attrs, attrsAtEnd := st.attrs,
                flagResolved := some fc, acquired := acqAll,
                released := [Ref.flagClass, Ref.enumClass, Ref.enumModule],
                trace := st.trace, errPending := st.errPending }
            else
              initFail acqAll st.attrs (some fc) st.trace
        else
          initFail [Ref.module, Ref.enumModule] initRegState.attrs none initRegState.trace
      else
        initFail [Ref.module] initRegState.attrs none initRegState.trace
    else
      initFail [Ref.module] [] none [Event.createNamespace]
  else
    initFail [] [] none []

/-- An AddOracle under which every host-runtime call succeeds. -/
def allOkAdd : AddOracle :=
  { listNewOk := true, buildValueOk := fun _ => true, callOk := true,
    unicodeOk := true, setDocOk := true, addObjectOk := true }

/-- An AddOracle under which only PyModule_AddObject fails. -/
def installFailAdd : AddOracle :=
  { allOkAdd with addObjectOk := false }

/-- An AddOracle under which only the doc-attribute set fails. -/
def setDocFailAdd : AddOracle :=
  { allOkAdd with setDocOk := false }

/-- An InitOracle under which every host-runtime call succeeds. -/
def allOkInit : InitOracle :=
  { moduleCreateOk := true, addEpochOk := true, importEnumOk := true,
    hasEnumAttr := true, hasFlagAttr := true, hasIntEnumAttr := true,
    severityO := allOkAdd, statusO := allOkAdd, typeO := allOkAdd,
    accessRightsO := allOkAdd, eventsO := allOkAdd }

/-- The failure-injection oracle of the spec: everything succeeds except
that the namespace rejects installation of the third group (Type). -/
def typeInstallRejectInit : InitOracle :=
  { allOkInit with typeO := installFailAdd }

/-- An AddOracle under which only PyUnicode_FromString for the doc string
fails. -/
def unicodeFailAdd : AddOracle :=
  { allOkAdd with unicodeOk := false }

/-- An InitOracle under which the enum module offers no Flag attribute. -/
def noFlagInit : InitOracle :=
  { allOkInit with hasFlagAttr := false }

/-- An InitOracle under which the enum module offers no Enum attribute. -/
def noEnumInit : InitOracle :=
  { allOkInit with hasEnumAttr := false }

/-- An InitOracle under which importing the enum module fails. -/
def noImportInit : InitOracle :=
  { allOkInit with importEnumOk := false }

/-- The entry loop builds, when every Py_BuildValue succeeds, exactly the
(text(j), value(j)) list over the processed index range. -/
theorem buildPairs_eq_range (d : EnumDef) (o : AddOracle) :
    ∀ (k i : Nat), (∀ j, j < k → o.buildValueOk (i + j) = true) →
      buildPairs d o i k =
        some ((List.range' i k).map (fun j => (d.text j, d.value j))) := by
  intro k
  induction k with
  | zero => intro i _; simp [buildPairs, List.range']
  | succ n ih =>
    intro i h
    have h0 : o.buildValueOk i = true := by
      have := h 0 (Nat.succ_pos n)
      simpa using this
    have hrest : ∀ j, j < n → o.buildValueOk (i + 1 + j) = true := by
      intro j hj
      have := h (j + 1) (Nat.succ_lt_succ hj)
      have e : i + (j + 1) = i + 1 + j := by omega
      rw [e] at this
      exact this
    simp [buildPairs, h0, ih (i + 1) hrest, List.range']

/-- The full entry loop of add_enum produces exactly the spec's ordered
pair sequence. -/
theorem buildPairs_full (d : EnumDef) (o : AddOracle)
    (h : ∀ j, j < d.count → o.buildValueOk j = true) :
    buildPairs d o 0 d.count = some (specPairs d) := by
  have hb := buildPairs_eq_range d o d.count 0 (by simpa using h)
  simpa [specPairs, List.range_eq_range'] using hb

/-- The spec's pair sequence has exactly count() elements. -/
theorem specPairs_length (d : EnumDef) : (specPairs d).length = d.count := by
  simp [specPairs]

/-- The i-th element of the spec's pair sequence is (text(i), value(i)). -/
theorem specPairs_getD (d : EnumDef) (i : Nat) (h : i < d.count) :
    (specPairs d).getD i ("", 0) = (d.text i, d.value i) := by
  simp [specPairs, List.getD_eq_getElem?_getD, List.getElem?_map,
    List.getElem?_range, h]

/-- When every registration in the sequence succeeds, the trace grows by
exactly one register event per group, in list order. -/
theorem registerAll_trace (gs : List (EnumDef × CtorSlot × AddOracle)) :
    ∀ st : RegState, (registerAll gs st).ok = true →
      (registerAll gs st).trace =
        st.trace ++ gs.map (fun g => Event.register g.1.name g.2.1) := by
  induction gs with
  | nil => intro st _; simp [registerAll]
  | cons g rest ih =>
    intro st h
    obtain ⟨d, slot, ao⟩ := g
    by_cases hr : (add_enum d ao st.attrs st.errPending).ok = true
    · have := ih { ok := true, attrs := (add_enum d ao st.attrs st.errPending).attrs,
                   errPending := (add_enum d ao st.attrs st.errPending).errPending,
                   trace := st.trace ++ [Event.register d.name slot] }
      simp only [registerAll, hr, if_true] at h ⊢
      rw [this h]
      simp
    · simp only [registerAll, hr, if_false, Bool.false_eq_true] at h

/-- Claim C1: for every constant group registered through add_enum, the
pair sequence handed to the type constructor is exactly the ordered
sequence (text(i), value(i)) for i from 0 to count()-1, so the produced
type has count() members and, for every index i, a member named text(i)
with underlying value value(i). -/
theorem add_enum_pairs_exact (d : EnumDef) (o : AddOracle)
    (attrs : List (String × PyAttr)) (err : Bool)
    (h1 : o.listNewOk = true) (h2 : ∀ j, j < d.count → o.buildValueOk j = true)
    (h3 : o.callOk = true) (h4 : o.addObjectOk = true) :
    (add_enum d o attrs err).calledWith = some (d.name, specPairs d) ∧
    (specPairs d).length = d.count ∧
    (∀ i, i < d.count → (specPairs d).getD i ("", 0) = (d.text i, d.value i)) ∧
    ∃ ty : TypeObj,
      (add_enum d o attrs err).attrs = attrs ++ [(d.name, PyAttr.enumType ty)] ∧
      ty.name = d.name ∧ ty.members = specPairs d ∧
      ty.members.length = d.count := by
  have hb := buildPairs_full d o h2
  refine ⟨?_, specPairs_length d, fun i h => specPairs_getD d i h, ?_⟩
  · simp [add_enum, h1, h3, h4, hb]
  · refine ⟨{ name := d.name, members := specPairs d,
              docSet := match d.doc with
                        | none => false
                        | some _ => o.unicodeOk && o.setDocOk }, ?_, rfl, rfl,
            specPairs_length d⟩
    simp [add_enum, h1, h3, h4, hb]

/-- Witness for add_enum_pairs_exact: the AccessRights group with the
all-success oracle on an empty module. -/
theorem add_enum_pairs_exact_witness :
    (add_enum AccessRights allOkAdd [] false).calledWith
      = some (AccessRights.name, specPairs AccessRights) ∧
    (specPairs AccessRights).length = AccessRights.count ∧
    (∀ i, i < AccessRights.count →
      (specPairs AccessRights).getD i ("", 0)
        = (AccessRights.text i, AccessRights.value i)) ∧
    ∃ ty : TypeObj,
      (add_enum AccessRights allOkAdd [] false).attrs
        = [] ++ [(AccessRights.name, PyAttr.enumType ty)] ∧
      ty.name = AccessRights.name ∧ ty.members = specPairs AccessRights ∧
      ty.members.length = AccessRights.count :=
  add_enum_pairs_exact AccessRights allOkAdd [] false rfl (fun _ _ => rfl) rfl rfl

/-- Claim C2 (code evaluation at the failing input): when
PyModule_AddObject rejects the attribute, add_enum returns false and
leaves the module unchanged, but the constructed type's reference is
never released — the type object is leaked, not discarded as the spec
states (PyModule_AddObject steals the reference only on success, and the
failure branch performs no Py_DECREF on type). -/
theorem add_enum_install_failure_leaks :
    (add_enum AccessRights installFailAdd [] false).ok = false ∧
    (add_enum AccessRights installFailAdd [] false).attrs = [] ∧
    (add_enum AccessRights installFailAdd [] false).leaked = ["type AccessRights"] :=
  ⟨rfl, rfl, rfl⟩

/-- Claim C3: failure to attach the documentation string never aborts
registration: whenever the list build, the constructor call and the
install succeed, add_enum returns true for every outcome of the
doc-string creation and doc-attribute set. -/
theorem add_enum_doc_best_effort (d : EnumDef) (o : AddOracle)
    (attrs : List (String × PyAttr)) (err : Bool)
    (h1 : o.listNewOk = true) (h2 : ∀ j, j < d.count → o.buildValueOk j = true)
    (h3 : o.callOk = true) (h4 : o.addObjectOk = true) :
    (add_enum d o attrs err).ok = true := by
  have hb := buildPairs_full d o h2
  simp [add_enum, h1, h3, h4, hb]

/-- Witness for add_enum_doc_best_effort: the Status group under an
oracle whose doc-string creation fails. -/
theorem add_enum_doc_best_effort_witness :
    (add_enum Status unicodeFailAdd [] false).ok = true :=
  add_enum_doc_best_effort Status unicodeFailAdd [] false rfl (fun _ _ => rfl) rfl rfl

/-- Claim C10: when setting the documentation attribute on a constructed
type fails, add_enum still returns success but the pending error raised
by the failed attribute-set call is never cleared: registration reports
success while an error condition remains raised in the runtime. -/
theorem add_enum_doc_failure_leaves_error (d : EnumDef) (o : AddOracle)
    (attrs : List (String × PyAttr)) (err : Bool) (s : String)
    (hd : d.doc = some s)
    (h1 : o.listNewOk = true) (h2 : ∀ j, j < d.count → o.buildValueOk j = true)
    (h3 : o.callOk = true) (hu : o.unicodeOk = true) (hs : o.setDocOk = false)
    (h4 : o.addObjectOk = true) :
    (add_enum d o attrs err).ok = true ∧
    (add_enum d o attrs err).errPending = true := by
  have hb := buildPairs_full d o h2
  constructor <;> simp [add_enum, h1, h3, h4, hb, hd, hu, hs]

/-- Witness for add_enum_doc_failure_leaves_error: the Severity group
under an oracle whose doc-attribute set fails. -/
theorem add_enum_doc_failure_leaves_error_witness :
    (add_enum Severity setDocFailAdd [] false).ok = true ∧
    (add_enum Severity setDocFailAdd [] false).errPending = true :=
  add_enum_doc_failure_leaves_error Severity setDocFailAdd [] false
    "Alarm severity of a channel access PV." rfl rfl (fun _ _ => rfl) rfl rfl rfl rfl

/-- Claim C4: module initialization first creates the namespace, then
attaches the integer scalar EPICS_EPOCH (the POSIX time of the library's
epoch reference), then registers the five groups in the fixed order
Severity, Status, Type, AccessRights, Events, with the enum-like
constructor slot for the first three and the flag-like slot for the last
two: every successful initialization produces exactly this event trace. -/
theorem PyInit_ca_success_order (o : InitOracle)
    (h : (PyInit_ca o).returned.isSome = true) :
    (PyInit_ca o).trace =
      [Event.createNamespace,
       Event.addIntConstant "EPICS_EPOCH" POSIX_TIME_AT_EPICS_EPOCH,
       Event.register "Severity" CtorSlot.enumSlot,
       Event.register "Status" CtorSlot.enumSlot,
       Event.register "Type" CtorSlot.enumSlot,
       Event.register "AccessRights" CtorSlot.flagSlot,
       Event.register "Events" CtorSlot.flagSlot] := by
  by_cases h1 : o.moduleCreateOk = true
  · by_cases h2 : o.addEpochOk = true
    · by_cases h3 : o.importEnumOk = true
      · by_cases h4 : o.hasEnumAttr = true
        · cases hfl : flagLookup o with
          | none => simp [PyInit_ca, h1, h2, h3, h4, hfl, initFail] at h
          | some fc =>
            by_cases hst : (registerAll (groupsOf o) initRegState).ok = true
            · have ht := registerAll_trace (groupsOf o) initRegState hst
              simp only [PyInit_ca, h1, h2, h3, h4, hfl, hst, if_true]
              rw [ht]
              simp [initRegState, groupsOf, Severity, Status, TypeGroup,
                AccessRights, Events]
            · simp [PyInit_ca, h1, h2, h3, h4, hfl, hst, initFail] at h
        · simp [PyInit_ca, h1, h2, h3, h4, initFail] at h
      · simp [PyInit_ca, h1, h2, h3, initFail] at h
    · simp [PyInit_ca, h1, h2, initFail] at h
  · simp [PyInit_ca, h1, initFail] at h

/-- Witness for PyInit_ca_success_order: the all-success oracle. -/
theorem PyInit_ca_success_order_witness :
    (PyInit_ca allOkInit).trace =
      [Event.createNamespace,
       Event.addIntConstant "EPICS_EPOCH" POSIX_TIME_AT_EPICS_EPOCH,
       Event.register "Severity" CtorSlot.enumSlot,
       Event.register "Status" CtorSlot.enumSlot,
       Event.register "Type" CtorSlot.enumSlot,
       Event.register "AccessRights" CtorSlot.flagSlot,
       Event.register "Events" CtorSlot.flagSlot] :=
  PyInit_ca_success_order allOkInit rfl

/-- Claim C5: constructor lookup happens once before any registration;
when the preferred Flag constructor is missing initialization resolves
the IntEnum fallback and continues, whereas a missing Enum constructor or
a failed import of the enumeration facility makes initialization fail —
the fallback exists for the flag constructor only. -/
theorem PyInit_ca_lookup_fallback :
    (∀ o : InitOracle, o.moduleCreateOk = true → o.addEpochOk = true →
        o.importEnumOk = true → o.hasEnumAttr = true → o.hasFlagAttr = false →
        o.hasIntEnumAttr = true →
        (PyInit_ca o).flagResolved = some FlagChoice.intEnumCtor) ∧
    (∀ o : InitOracle, o.hasEnumAttr = false → (PyInit_ca o).returned = none) ∧
    (∀ o : InitOracle, o.importEnumOk = false → (PyInit_ca o).returned = none) := by
  refine ⟨?_, ?_, ?_⟩
  · intro o h1 h2 h3 h4 hf hi
    have hfl : flagLookup o = some FlagChoice.intEnumCtor := by
      simp [flagLookup, hf, hi]
    by_cases hst : (registerAll (groupsOf o) initRegState).ok = true <;>
      simp [PyInit_ca, h1, h2, h3, h4, hfl, hst, initFail]
  · intro o h4
    by_cases h1 : o.moduleCreateOk = true
    · by_cases h2 : o.addEpochOk = true
      · by_cases h3 : o.importEnumOk = true
        · simp [PyInit_ca, h1, h2, h3, h4, initFail]
        · simp [PyInit_ca, h1, h2, h3, initFail]
      · simp [PyInit_ca, h1, h2, initFail]
    · simp [PyInit_ca, h1, initFail]
  · intro o h3
    by_cases h1 : o.moduleCreateOk = true
    · by_cases h2 : o.addEpochOk = true
      · simp [PyInit_ca, h1, h2, h3, initFail]
      · simp [PyInit_ca, h1, h2, initFail]
    · simp [PyInit_ca, h1, initFail]

/-- Witness for PyInit_ca_lookup_fallback: the three behaviors at
concrete oracles (Flag missing, Enum missing, import failing). -/
theorem PyInit_ca_lookup_fallback_witness :
    (PyInit_ca noFlagInit).flagResolved = some FlagChoice.intEnumCtor ∧
    (PyInit_ca noEnumInit).returned = none ∧
    (PyInit_ca noImportInit).returned = none :=
  ⟨PyInit_ca_lookup_fallback.1 noFlagInit rfl rfl rfl rfl rfl rfl,
   PyInit_ca_lookup_fallback.2.1 noEnumInit rfl,
   PyInit_ca_lookup_fallback.2.2 noImportInit rfl⟩

/-- Claim C8: on any failure of module initialization, the runtime
references acquired so far (constructors, enumeration facility, and the
partially built namespace) are released in reverse acquisition order, and
no namespace is returned to the caller. -/
theorem PyInit_ca_failure_releases_reverse (o : InitOracle)
    (h : (PyInit_ca o).returned = none) :
    (PyInit_ca o).released = (PyInit_ca o).acquired.reverse := by
  have e0 : xdecrefSeq [] = List.reverse ([] : List Ref) := by decide
  have e1 : xdecrefSeq [Ref.module] = List.reverse [Ref.module] := by decide
  have e2 : xdecrefSeq [Ref.module, Ref.enumModule]
      = List.reverse [Ref.module, Ref.enumModule] := by decide
  have e3 : xdecrefSeq [Ref.module, Ref.enumModule, Ref.enumClass]
      = List.reverse [Ref.module, Ref.enumModule, Ref.enumClass] := by decide
  have e4 : xdecrefSeq acqAll = List.reverse acqAll := by decide
  by_cases h1 : o.moduleCreateOk = true
  · by_cases h2 : o.addEpochOk = true
    · by_cases h3 : o.importEnumOk = true
      · by_cases h4 : o.hasEnumAttr = true
        · cases hfl : flagLookup o with
          | none => simp [PyInit_ca, h1, h2, h3, h4, hfl, initFail, e3]
          | some fc =>
            by_cases hst : (registerAll (groupsOf o) initRegState).ok = true
            · simp [PyInit_ca, h1, h2, h3, h4, hfl, hst] at h
            · simp [PyInit_ca, h1, h2, h3, h4, hfl, hst, initFail]
              decide
        · simp [PyInit_ca, h1, h2, h3, h4, initFail, e2]
      · simp [PyInit_ca, h1, h2, h3, initFail, e1]
    · simp [PyInit_ca, h1, h2, initFail, e1]
  · simp [PyInit_ca, h1, initFail, e0]

/-- Witness for PyInit_ca_failure_releases_reverse: the failure-injection
oracle whose third registration is rejected by the namespace. -/
theorem PyInit_ca_failure_releases_reverse_witness :
    (PyInit_ca typeInstallRejectInit).released =
      (PyInit_ca typeInstallRejectInit).acquired.reverse :=
  PyInit_ca_failure_releases_reverse typeInstallRejectInit rfl

/-- Claim C9: when the namespace rejects installation of the third group
(Type), initialization fails and the namespace contents at the point of
failure are exactly the epoch constant and the first two groups, in this
order, with no attribute from groups three to five. -/
theorem PyInit_ca_type_reject_frame :
    (PyInit_ca typeInstallRejectInit).returned = none ∧
    (PyInit_ca typeInstallRejectInit).attrsAtEnd.map Prod.fst =
      ["EPICS_EPOCH", "Severity", "Status"] :=
  ⟨rfl, rfl⟩

/-- Claim C6: the Type group's count() equals the library's field-type
count minus 2 (the two reserved sentinel entries are excluded), and every
member name of the Type group is the library's field-type name with its
fixed 4-character DBF_ prefix stripped, so no member name retains that
prefix. -/
theorem TypeGroup_count_and_prefix_stripped :
    TypeGroup.count = dbf_text_dim - 2 ∧
    ∀ i, i < TypeGroup.count →
      (dbf_type_to_text i).data = "DBF_".data ++ (TypeGroup.text i).data ∧
      (("DBF_".data).isPrefixOf (TypeGroup.text i).data) = false := by
  refine ⟨rfl, ?_⟩
  decide

/-- Witness for TypeGroup_count_and_prefix_stripped: index 0 of the Type
group (library name DBF_STRING, member name STRING). -/
theorem TypeGroup_count_and_prefix_stripped_witness :
    0 < TypeGroup.count ∧
    ((dbf_type_to_text 0).data = "DBF_".data ++ (TypeGroup.text 0).data ∧
     (("DBF_".data).isPrefixOf (TypeGroup.text 0).data) = false) :=
  ⟨by decide, TypeGroup_count_and_prefix_stripped.2 0 (by decide)⟩

/-- Claim C7: in the AccessRights pair sequence, RW_ACCESS has the value
of READ_ACCESS bitwise-or WRITE_ACCESS (3 = 1 | 2); in the Events pair
sequence, NONE is 0 and ALL is the bitwise OR of the VALUE, ARCHIVE,
ALARM and PROPERTY masks. -/
theorem flag_value_identities :
    memberVal AccessRights "READ_ACCESS" = some 1 ∧
    memberVal AccessRights "WRITE_ACCESS" = some 2 ∧
    memberVal AccessRights "RW_ACCESS" = some (Int.lor 1 2) ∧
    memberVal Events "NONE" = some 0 ∧
    memberVal Events "VALUE" = some DBE_VALUE ∧
    memberVal Events "ARCHIVE" = some DBE_ARCHIVE ∧
    memberVal Events "ALARM" = some DBE_ALARM ∧
    memberVal Events "PROPERTY" = some DBE_PROPERTY ∧
    memberVal Events "ALL" =
      some (Int.lor (Int.lor (Int.lor DBE_VALUE DBE_ARCHIVE) DBE_ALARM) DBE_PROPERTY) := by
  decide

end ca

